import Mathlib

/-!
Verification of the Concession & Termination Engine of the persuasion_bot
repository: a shallow embedding of the Python sources
(`app/services/concession_service.py`, `app/services/novelty_guard.py`,
`app/services/text_mining.py`, `app/services/end_renderer.py`,
`app/utils/text.py`, `app/domain/concession_policy.py`,
`app/domain/mappings.py`) into Lean, with theorems about the embedded
definitions.  Python floats are modelled as rationals, Python exceptions as
`Except`, and the external collaborators (NLI scorer, verdict judge, reply
generator) as function parameters.
-/

set_option maxHeartbeats 1000000

namespace Persuasion

/-- Whitespace test, modelling Python's `\s` character class. -/
def isWs (c : Char) : Bool := c.isWhitespace

/-- ASCII lowercasing, modelling `str.lower()` on the ASCII range used here. -/
def lowerChar (c : Char) : Char := c.toLower

/-- Lowercase a whole string (`s.lower()`). -/
def lowerStr (s : String) : String := String.mk (s.toList.map lowerChar)

/-- Membership in Python's `string.punctuation` (ASCII codes 33-47, 58-64,
91-96, 123-126). -/
def isAsciiPunct (c : Char) : Bool :=
  (33 ≤ c.toNat && c.toNat ≤ 47) || (58 ≤ c.toNat && c.toNat ≤ 64) ||
  (91 ≤ c.toNat && c.toNat ≤ 96) || (123 ≤ c.toNat && c.toNat ≤ 126)

/-- The extra characters the source appends to `string.punctuation` in
`_tokenize_norm` / `_char_ngrams`: `'¿¡“”"…—–-'`.  The plain double quote and
hyphen are already ASCII punctuation, so only the non-ASCII ones are listed. -/
def extraPunct : List Char := ['¿', '¡', '“', '”', '…', '—', '–']

/-- A character deleted by the `str.translate` calls of `_tokenize_norm`:
ASCII punctuation plus the extra characters. -/
def isPunctChar (c : Char) : Bool := isAsciiPunct c || extraPunct.contains c

/-- Python's `\w` word-character class (ASCII fragment): alphanumeric or
underscore. -/
def isWordChar (c : Char) : Bool := c.isAlphanum || c == '_'

/-- Maximal runs of characters satisfying `p`, with a structural fuel
parameter (each step consumes at least one character, so fuel equal to the
list length never runs out). -/
def charRunsFuel (p : Char → Bool) : ℕ → List Char → List (List Char)
  | 0, _ => []
  | _, [] => []
  | fuel + 1, c :: rest =>
    if p c then
      (c :: rest.takeWhile p) :: charRunsFuel p fuel (rest.dropWhile p)
    else
      charRunsFuel p fuel rest

/-- Maximal runs of characters satisfying `p`, modelling
`re.findall(r'\b\w+\b', s)`-style extraction of maximal matching runs. -/
def charRuns (p : Char → Bool) (l : List Char) : List (List Char) :=
  charRunsFuel p l.length l

/-- English stop words `_STOP_EN` from `app/utils/text.py`. -/
def STOP_EN : List String :=
  ["the", "a", "an", "of", "to", "and", "or", "in", "on", "for", "with", "by",
   "is", "are", "was", "were", "be", "being", "been", "it", "this", "that",
   "these", "those", "as", "at", "from", "not", "no", "yes", "but", "if",
   "then", "so", "than", "because", "i", "you", "he", "she", "we", "they",
   "them", "me", "my", "your", "our", "their", "his", "her", "its", "what",
   "which", "who", "whom", "how", "why", "when", "where", "there", "here"]

/-- Spanish stop words `_STOP_ES` from `app/utils/text.py`. -/
def STOP_ES : List String :=
  ["el", "la", "los", "las", "un", "una", "unos", "unas", "de", "del", "al",
   "a", "y", "o", "en", "con", "por", "para", "según", "sin", "sobre", "es",
   "son", "fue", "eran", "ser", "siendo", "sido", "esto", "esa", "ese",
   "esas", "esos", "estos", "como", "que", "qué", "quien", "quién", "cuando",
   "cuándo", "donde", "dónde", "porqué", "porque", "no", "sí", "pero", "si",
   "yo", "tú", "vos", "usted", "ustedes", "él", "ella", "nosotros",
   "nosotras", "ellos", "ellas", "mi", "mis", "tu", "tus", "su", "sus",
   "nuestro", "nuestra", "nuestros", "nuestras", "aquí", "allí", "ahí"]

/-- The union `STOP_ALL = _STOP_EN | _STOP_ES`. -/
def STOP_ALL : List String := STOP_EN ++ STOP_ES

/-- Embeds `NoveltyGuard._tokenize_norm` (`novelty_guard.py` imports
`STOP_ALL` from `app/utils/text.py`): lowercase, delete punctuation, take
maximal `\w+` runs, keep tokens longer than 2 characters that are not stop
words.  The textually identical `ConcessionService._tokenize_norm` raises
instead, because `concession_service.py` never imports `STOP_ALL` — see
`tokenize_norm_service`. -/
def tokenizeNorm (s : String) : List String :=
  if s = "" then []
  else
    let l := (s.toList.map lowerChar).filter (fun c => !(isPunctChar c))
    ((charRuns isWordChar l).map String.mk).filter
      (fun t => 2 < t.length && !(STOP_ALL.contains t))

/-- Structural-fuel worker for `collapseWs`. -/
def collapseWsFuel : ℕ → List Char → List Char
  | 0, _ => []
  | _, [] => []
  | fuel + 1, c :: rest =>
    if isWs c then ' ' :: collapseWsFuel fuel (rest.dropWhile isWs)
    else c :: collapseWsFuel fuel rest

/-- Collapse every whitespace run to a single space:
`re.sub(r'\s+', ' ', s)`. -/
def collapseWs (l : List Char) : List Char :=
  collapseWsFuel l.length l

/-- Python `str.strip()` on a character list. -/
def trimChars (l : List Char) : List Char :=
  ((l.dropWhile isWs).reverse.dropWhile isWs).reverse

/-- Python `str.strip()` on a `String` (kernel-computable model of
`String.trim`). -/
def pyStrip (s : String) : String := String.mk (trimChars s.toList)

/-- Python `s.startswith(p)`. -/
def strStarts (s p : String) : Bool := p.toList.isPrefixOf s.toList

/-- Python `s.endswith(p)`. -/
def strEnds (s p : String) : Bool := p.toList.reverse.isPrefixOf s.toList.reverse

/-- Embeds `normalize_spaces` from `app/utils/text.py`:
`re.sub(r'\s+', ' ', s).strip()`. -/
def normalize_spaces (s : String) : String :=
  String.mk (trimChars (collapseWs s.toList))

/-- Embeds `_char_ngrams` (identical in `ConcessionService` and `NoveltyGuard`):
lowercase, collapse/strip whitespace, delete whitespace and punctuation, then
the set of all `n`-character substrings (the whole remainder when shorter
than `n`, the empty set for an empty remainder). -/
def charNgrams (s : String) (n : ℕ) : Finset (List Char) :=
  if s = "" then ∅
  else
    let l1 := trimChars (collapseWs (s.toList.map lowerChar))
    let l2 := l1.filter (fun c => !(isWs c || isPunctChar c))
    if l2.length < n then (if l2 = [] then ∅ else {l2})
    else ((List.range (l2.length - n + 1)).map (fun i => (l2.drop i).take n)).toFinset

/-- Embeds `_jaccard`: 1 when both sets are empty, 0 when exactly one is empty,
otherwise `|a ∩ b| / |a ∪ b|` (0 on a zero denominator, as in the source). -/
def jaccard (a b : Finset (List Char)) : ℚ :=
  if a = ∅ ∧ b = ∅ then 1
  else if a = ∅ ∨ b = ∅ then 0
  else
    let u := (a ∪ b).card
    if u = 0 then 0 else ((a ∩ b).card : ℚ) / u

/-- The token-overlap ratio from `_novelty_score`:
`len(cur ∩ prev) / max(len(cur), len(prev))` when either set is non-empty,
else 1. -/
def tokenOverlap (a b : Finset String) : ℚ :=
  if a = ∅ ∧ b = ∅ then 1
  else ((a ∩ b).card : ℚ) / (max a.card b.card)

/-- Embeds `NoveltyGuard._novelty_score`: 0 for empty current text, 1 for
no prior texts, otherwise `clamp01 (1 - max similarity)` where each
similarity is `0.65 · jaccard(ngrams) + 0.35 · token overlap`.  The
textually identical `ConcessionService._novelty_score` raises `NameError`
through its `_tokenize_norm` for typical texts — see
`novelty_score_service`. -/
def novelty_score (current : String) (previous_texts : List String) : ℚ :=
  if current = "" then 0
  else if previous_texts = [] then 1
  else
    let curNgrams := charNgrams current 3
    let curTokens := (tokenizeNorm current).toFinset
    let maxSim := previous_texts.foldl
      (fun maxSim prev =>
        let jacc := jaccard curNgrams (charNgrams prev 3)
        let tokSim := tokenOverlap curTokens ((tokenizeNorm prev).toFinset)
        let sim := (65 / 100 : ℚ) * jacc + (35 / 100 : ℚ) * tokSim
        if maxSim < sim then sim else maxSim) 0
    max 0 (min 1 (1 - maxSim))

/-- Embeds `ConcessionService._tokenize_norm` (`concession_service.py`,
line 589): the module never imports or defines `STOP_ALL`, so the list
comprehension `[t for t in tokens if len(t) > 2 and t not in STOP_ALL]`
raises `NameError` at the first token longer than 2 characters; when no
such token exists the `and` short-circuits and the result is the empty
list. -/
def tokenize_norm_service (s : String) : Except Unit (List String) :=
  if s = "" then Except.ok []
  else
    let l := (s.toList.map lowerChar).filter (fun c => !(isPunctChar c))
    if ((charRuns isWordChar l).map String.mk).any
        (fun t => 2 < t.length) then
      Except.error ()
    else Except.ok []

/-- Embeds `ConcessionService._novelty_score`: the same algorithm as
`NoveltyGuard._novelty_score`, except that its `_tokenize_norm` raises
(`STOP_ALL` undefined in that module), so the whole computation raises for
any current or prior text containing a token longer than 2 characters
(after the two early returns, which never tokenize). -/
def novelty_score_service (current : String) (previous_texts : List String) :
    Except Unit ℚ :=
  if current = "" then Except.ok 0
  else if previous_texts = [] then Except.ok 1
  else do
    let curNgrams := charNgrams current 3
    let curTokens ← tokenize_norm_service current
    let maxSim ← previous_texts.foldlM
      (fun maxSim prev => do
        let prevTokens ← tokenize_norm_service prev
        let jacc := jaccard curNgrams (charNgrams prev 3)
        let tokSim := tokenOverlap curTokens.toFinset prevTokens.toFinset
        let sim := (65 / 100 : ℚ) * jacc + (35 / 100 : ℚ) * tokSim
        pure (if maxSim < sim then sim else maxSim)) (0 : ℚ)
    pure (max 0 (min 1 (1 - maxSim)))

/-- Modelled from the spec: `app/domain/enums.py` is not under src/; §3 of
the spec defines `stance: enum{PRO,CON}`. -/
inductive Stance
  | pro
  | con
deriving DecidableEq, Repr

/-- Embeds `ConcessionPolicy` from `app/domain/concession_policy.py` (a frozen
dataclass holding the two termination thresholds). -/
structure ConcessionPolicy where
  required_positive_judgements : ℕ
  max_assistant_turns : ℕ
deriving DecidableEq, Repr

/-- Embeds `DebateState` from `app/domain/concession_policy.py`: a plain (non-frozen)
mutable dataclass.  Defaults are the dataclass field defaults. -/
structure DebateState where
  topic : String
  stance : Stance
  lang : String := "en"
  lang_locked : Bool := false
  assistant_turns : ℕ := 0
  positive_judgements : ℕ := 0
  match_concluded : Bool := false
  policy : ConcessionPolicy
  end_reason : String := ""
  last_reason : String := ""
  last_judge_accept : Bool := false
  last_judge_reason_label : String := ""
  last_judge_confidence : ℚ := 0
  show_telemetry : Bool := true
deriving DecidableEq, Repr

/-- Embeds `DebateState.set_judge`: stores the judge verdict, stripping the reason
(`(reason or '').strip()`). -/
def DebateState.set_judge (s : DebateState) (accept : Bool) (reason : String)
    (confidence : ℚ) : DebateState :=
  { s with
    last_judge_accept := accept,
    last_judge_reason_label := pyStrip reason,
    last_judge_confidence := confidence }

/-- Python's `a or b` on strings: `b` when `a` is empty (falsy), else `a`. -/
def pyOrStr (a b : String) : String := if a = "" then b else a

/-- Embeds `END_REASON_MAP` from `app/domain/mappings.py` (as `.get`: `none` for an
unknown reason code).  The leading `T` typo in the first sentence is in the
source. -/
def END_REASON_MAP (label : String) : Option String :=
  if label = "strict_thesis_contradiction" then
    some "TYour arguments directly contradicted the thesis and prevailed. Congratulations, you won this debate."
  else if label = "strong_contradiction_evidence" then
    some "Compelling evidence strongly contradicted the defended thesis."
  else if label = "supports_defended_stance" then
    some "The user’s argument actually supported the defended thesis."
  else if label = "policy_threshold_reached" then
    some "Enough of your points were accepted. Well done, you convinced me."
  else if label = "max_turns_reached" then
    some "Debate ended after reaching the maximum number of turns."
  else if label = "unspecified_reason" then
    some "The debate concluded per policy."
  else none

/-- Python `str.replace('_', ' ')`. -/
def underscoresToSpaces (s : String) : String :=
  String.mk (s.toList.map (fun c => if c = '_' then ' ' else c))

/-- Round half to even, modelling the rounding of Python's `f'{x:.2f}'`
applied to `x * 100`. -/
def roundHalfEven (q : ℚ) : ℤ :=
  let f := ⌊q⌋
  let r := q - f
  if r < 1 / 2 then f
  else if 1 / 2 < r then f + 1
  else if f % 2 = 0 then f else f + 1

/-- The two fractional digits of the 2-decimal rendering. -/
def twoDigits (n : ℕ) : String :=
  String.mk [Nat.digitChar (n / 10 % 10), Nat.digitChar (n % 10)]

/-- Python `f'{q:.2f}'`: sign, integer part, dot, exactly two fractional digits. -/
def formatTwoDec (q : ℚ) : String :=
  let c := roundHalfEven (q * 100)
  let sign := if c < 0 then "-" else ""
  let a := c.natAbs
  sign ++ toString (a / 100) ++ "." ++ twoDigits (a % 100)

/-- The variable mapping produced for the end-of-debate rendering. -/
structure EndVars where
  LANGUAGE : String
  TOPIC : String
  DEBATE_STATUS : String
  END_REASON : String
  JUDGE_REASON_LABEL : String
  JUDGE_CONFIDENCE : String
deriving DecidableEq, Repr

/-- Embeds `ConcessionService._end_prompt_vars` (identical logic in
`EndRenderer._end_vars`): reason label defaulting to `unspecified_reason`,
`END_REASON = END_REASON_MAP.get(label) or state.end_reason or
label.replace('_', ' ')`, and a 2-decimal confidence. -/
def end_prompt_vars (state : DebateState) : EndVars :=
  let reason_label := pyOrStr state.last_judge_reason_label "unspecified_reason"
  let end_reason :=
    pyOrStr (pyOrStr ((END_REASON_MAP reason_label).getD "") state.end_reason)
      (underscoresToSpaces reason_label)
  { LANGUAGE := lowerStr (pyOrStr state.lang "en"),
    TOPIC := state.topic,
    DEBATE_STATUS := "ENDED",
    END_REASON := end_reason,
    JUDGE_REASON_LABEL := reason_label,
    JUDGE_CONFIDENCE := formatTwoDec state.last_judge_confidence }

/-- Python attribute assignment `state.topic = value`: `DebateState` is a
non-frozen dataclass with no `__setattr__` guard, so the attempt always
succeeds.  The `Except` result records whether the attempt was rejected. -/
def DebateState.assignTopic (s : DebateState) (t : String) :
    Except String DebateState :=
  Except.ok { s with topic := t }

/-- Python attribute assignment `state.stance = value` (same: no guard). -/
def DebateState.assignStance (s : DebateState) (st : Stance) :
    Except String DebateState :=
  Except.ok { s with stance := st }

/-- The `end_reason` write of `analyze_conversation` (guarded by
`if not state.end_reason:`): overwriting a non-empty `end_reason` is silently
skipped, never rejected with an error. -/
def DebateState.writeEndReason (s : DebateState) (r : String) :
    Except String DebateState :=
  Except.ok (if s.end_reason = "" then { s with end_reason := r } else s)

theorem jaccard_self (a : Finset (List Char)) : jaccard a a = 1 := by
  unfold jaccard
  by_cases h : a = ∅
  · simp [h]
  · have hcard : (a.card : ℚ) ≠ 0 := by
      exact_mod_cast Finset.card_ne_zero.mpr (Finset.nonempty_iff_ne_empty.mpr h)
    simp only [h, and_self, if_false, or_self, Finset.union_self, Finset.inter_self]
    rw [if_neg (Finset.card_ne_zero.mpr (Finset.nonempty_iff_ne_empty.mpr h))]
    exact div_self hcard

theorem tokenOverlap_self (a : Finset String) : tokenOverlap a a = 1 := by
  unfold tokenOverlap
  by_cases h : a = ∅
  · simp [h]
  · have hcard : (a.card : ℚ) ≠ 0 := by
      exact_mod_cast Finset.card_ne_zero.mpr (Finset.nonempty_iff_ne_empty.mpr h)
    simp only [h, and_self, if_false, Finset.inter_self, max_self]
    exact div_self hcard

theorem novelty_score_self (x : String) (hx : x ≠ "") :
    novelty_score x [x] = 0 := by
  unfold novelty_score
  rw [if_neg hx, if_neg (by simp)]
  simp only [List.foldl_cons, List.foldl_nil, jaccard_self,
    tokenOverlap_self]
  norm_num

/-- One direction of NLI label probabilities. -/
structure NLIDir where
  entailment : ℚ
  contradiction : ℚ
  neutral : ℚ
deriving DecidableEq, Repr

/-- Bidirectional NLI scores as returned by
`NLIPort.bidirectional_scores(premise, hypothesis)`. -/
structure BiScores where
  p_to_h : NLIDir
  h_to_p : NLIDir
deriving DecidableEq, Repr

/-- Modelled from the spec: `app/nli/ops.py` (`agg_max`) is not under src/;
§4.3 step 2 aggregates a bidirectional result by taking, per label, the
maximum across the two directions. -/
def agg_max (sc : BiScores) : NLIDir :=
  { entailment := max sc.p_to_h.entailment sc.h_to_p.entailment,
    contradiction := max sc.p_to_h.contradiction sc.h_to_p.contradiction,
    neutral := max sc.p_to_h.neutral sc.h_to_p.neutral }

/-- Modelled from the spec: `app/domain/nli/scoring.py` (`ScoringConfig`) is
not under src/.  Fields and defaults are the ones the service reads:
`novelty_min` (default 0.25) and `min_assistant_words` (default 8) appear as
`getattr` defaults in src, and `topic_signal_min` / `topic_neu_max` are the
two configured on-topic thresholds of §4.3 step 3. -/
structure ScoringConfig where
  novelty_min : ℚ := 1 / 4
  min_assistant_words : ℕ := 8
  topic_signal_min : ℚ := 1 / 2
  topic_neu_max : ℚ := 1 / 2
deriving DecidableEq, Repr

/-- A stored conversation message (`role` is `'bot'` or `'user'`). -/
structure Message where
  role : String
  message : String
deriving DecidableEq, Repr

/-- A mapped history entry, the dict shape produced by
`ConcessionService._map_history`. -/
structure Turn where
  role : String
  content : String
deriving DecidableEq, Repr

/-- Embeds `ConcessionService._map_history`: `'bot'` maps to `'assistant'`,
everything else to `'user'`. -/
def map_history (messages : List Message) : List Turn :=
  messages.map (fun m =>
    { role := if m.role = "bot" then "assistant" else "user",
      content := m.message })

/-- Embeds `ConcessionService._count_assistant_turns`. -/
def count_assistant_turns (messages : List Message) : ℕ :=
  (messages.filter (fun m => m.role == "bot")).length

/-- Downward search of `_last_index`: with fuel `i + 1` the index `i` is
examined first, then `i - 1`, and so on down to `0`. -/
def lastIndexFrom (convo : List Turn) (role : String) (pred : Turn → Bool) :
    ℕ → Option ℕ
  | 0 => none
  | i + 1 =>
    match convo[i]? with
    | some m =>
      if m.role == role && pred m then some i
      else lastIndexFrom convo role pred i
    | none => lastIndexFrom convo role pred i

/-- Embeds `ConcessionService._last_index` (same code in
`JudgePayloadBuilder._last_index`): the greatest index `< before` (or
`< len(convo)`) holding a message of `role` satisfying `pred`. -/
def last_index (convo : List Turn) (role : String) (pred : Turn → Bool)
    (before : Option ℕ) : Option ℕ :=
  lastIndexFrom convo role pred (before.getD convo.length)

/-- Embeds `word_count` from `app/utils/text.py`:
`len(WORD_RX.findall(text))` with `WORD_RX = [^\W\d_]+`, i.e. the number of
maximal letter runs (ASCII letters in this model). -/
def word_count (s : String) : ℕ :=
  (charRuns Char.isAlpha s.toList).length

/-- Structural-fuel worker for `splitAfterEnders`. -/
def splitAfterEndersFuel (enders : List Char) :
    ℕ → List Char → List Char → List (List Char)
  | 0, acc, _ => [acc.reverse]
  | _, acc, [] => [acc.reverse]
  | fuel + 1, acc, c :: rest =>
    if enders.contains c && (match rest with
        | r :: _ => isWs r
        | [] => false) then
      (c :: acc).reverse ::
        splitAfterEndersFuel enders fuel [] (rest.dropWhile isWs)
    else
      splitAfterEndersFuel enders fuel (c :: acc) rest

/-- Splits a character list after each occurrence of an ender character that
is directly followed by whitespace, dropping the whitespace run: the model
of `re.split(r'(?<=[...])\s+', text)`. -/
def splitAfterEnders (enders : List Char) (acc : List Char) (l : List Char) :
    List (List Char) :=
  splitAfterEndersFuel enders l.length acc l

/-- Splits, strips each piece, and drops empty pieces — the common prelude
`[p.strip() for p in re.split(...) if p.strip()]`. -/
def splitStripped (enders : List Char) (text : String) : List String :=
  ((splitAfterEnders enders [] text.toList).map
    (fun p => String.mk (trimChars p))).filter (fun p => p ≠ "")

/-- The ender class of `SENT_SPLIT_RX` in `app/utils/text.py`:
`[.!?¿\?¡!]`. -/
def dropQuestionEnders : List Char := ['.', '!', '?', '¿', '¡']

/-- Test of `IS_QUESTION_RX = [¿\?]\s*$`: the last non-whitespace character
is `¿` or `?`. -/
def isQuestionTail (l : List Char) : Bool :=
  match l.reverse.dropWhile isWs with
  | [] => false
  | c :: _ => c == '¿' || c == '?'

/-- Python `re.sub(r'\.\.+$', '.', out)`: a trailing run of two or more dots
collapses to a single dot. -/
def collapseTrailingDots (l : List Char) : List Char :=
  let r := l.reverse
  if 2 ≤ (r.takeWhile (· == '.')).length then
    ('.' :: r.dropWhile (· == '.')).reverse
  else l

/-- Embeds `drop_questions` from `app/utils/text.py`: split on sentence
enders, drop pieces ending in `¿`/`?`, rejoin with single spaces (the whole
text when no piece survives), collapse trailing dot runs, strip. -/
def drop_questions (text : String) : String :=
  let sents := (splitStripped dropQuestionEnders text).filter
    (fun s => !(isQuestionTail s.toList))
  let out := if sents = [] then text.toList
    else List.intercalate [' '] (sents.map String.toList)
  String.mk (trimChars (collapseTrailingDots out))

/-- The `SPANISH_Q_WORDS` tuple of `concession_service.py`. -/
def SPANISH_Q_WORDS : List String :=
  ["¿", "como", "cómo", "que", "qué", "por que", "por qué", "cuando",
   "cuándo", "donde", "dónde", "cual", "cuál", "cuales", "cuáles", "quien",
   "quién", "quienes", "quiénes"]

/-- Embeds `_looks_like_question`: the stripped lowercase text starts with
`¿` or with a Spanish question word followed by a space. -/
def looks_like_question (s : String) : Bool :=
  let s2 := lowerStr (String.mk (trimChars s.toList))
  if s2 = "" then false
  else strStarts s2 "¿" ||
    SPANISH_Q_WORDS.any (fun w => strStarts s2 (w ++ " "))

/-- Embeds `_ends_with_strong_punct`. -/
def ends_with_strong_punct (s : String) : Bool :=
  strEnds s "." || strEnds s "!" || strEnds s "?" || strEnds s "…"

/-- Embeds `_strip_trailing_fragment`: drop the last piece when it does not
end with strong punctuation. -/
def strip_trailing_fragment (parts : List String) : List String :=
  match parts.getLast? with
  | some last => if ends_with_strong_punct last then parts else parts.dropLast
  | none => parts

/-- The `ACK_PREFIXES` tuple (soft-acknowledgement sentence openers). -/
def ACK_STARTS : List String :=
  ["thanks", "thank you", "i appreciate", "good point", "fair point",
   "i see", "understand"]

/-- The `STANCE_BANNERS` tuple (stance/meta banner fragments). -/
def STANCE_BANNERS : List String :=
  ["i will gladly take the pro stance", "i will gladly take the con stance",
   "i will defend the proposition as stated",
   "defenderé la proposición tal como está",
   "defenderei a proposição como está", "tomaré el lado pro",
   "tomaré el lado con", "tomarei o lado pro", "tomarei o lado con"]

/-- Substring containment (`needle in hay` in Python). -/
def containsSub (needle : List Char) : List Char → Bool
  | [] => needle.isEmpty
  | c :: rest => needle.isPrefixOf (c :: rest) || containsSub needle rest

/-- The number of whitespace-separated fields, Python `len(s.split())`. -/
def pySplitCount (s : String) : ℕ :=
  (charRuns (fun c => !(isWs c)) s.toList).length

/-- Embeds `ConcessionService._extract_claims` (same algorithm as
`text_mining.extract_claims`): split the assistant text into sentences
(enders `.!?…`), drop a truncated trailing fragment, then keep declarative
substantive fragments: not questions, non-empty after `drop_questions`, not
acknowledgement-opener sentences, not stance banners, with a terminal
period appended when absent and at least 3 whitespace-separated words. -/
def extract_claims (bot_txt : String) : List String :=
  if bot_txt = "" then []
  else
    let raw_parts := splitStripped ['.', '!', '?', '…'] bot_txt
    let parts := strip_trailing_fragment raw_parts
    parts.filterMap (fun s =>
      if strEnds s "?" || looks_like_question s then none
      else
        let s2 := pyStrip (drop_questions s)
        if s2 = "" then none
        else
          let s2l := lowerStr s2
          if ACK_STARTS.any (fun p => strStarts s2l p) then none
          else if STANCE_BANNERS.any
              (fun b => containsSub b.toList s2l.toList) then none
          else
            let s3 := if strEnds s2 "." || strEnds s2 "!" then s2
              else s2 ++ "."
            if 3 ≤ pySplitCount s3 then some s3 else none)

/-- The candidate-sentence list of
`ConcessionService._max_contra_self_vs_sentences`: split on `.!?`, then for
each piece apply `drop_questions`, skip empty results and pieces ending in
`?`, append a terminal period when missing. -/
def scanSentences (user_txt : String) : List String :=
  (splitStripped ['.', '!', '?'] user_txt).filterMap (fun s =>
    let s2 := pyStrip (drop_questions s)
    if s2 = "" || strEnds s "?" then none
    else some (if strEnds s2 "." || strEnds s2 "!" || strEnds s2 "?"
      then s2 else s2 ++ "."))

/-- The running-maximum update of the sentence scan.  Note the source
compares with `con >= max_contra`, so a tie overwrites the retained pair. -/
def scanStep (acc : ℚ × ℚ) (agg : NLIDir) : ℚ × ℚ :=
  if acc.1 ≤ agg.contradiction then (agg.contradiction, agg.entailment)
  else acc

/-- The fold of the sentence scan, starting from `(0, 0)`. -/
def maxContraScan (aggs : List NLIDir) : ℚ × ℚ :=
  aggs.foldl scanStep (0, 0)

/-- Embeds `ConcessionService._max_contra_self_vs_sentences` (same loop in
`text_mining.max_contra_self_vs_sentences`), as the retained pair
`(max_contra, ent_at_max)`; the unused third component (`scores_at_max`,
discarded by the payload builder) is omitted.  The NLI scorer may raise,
hence `Except`. -/
def max_contra_self_vs_sentences (nli : String → String → Except Unit BiScores)
    (self_thesis user_txt : String) : Except Unit (ℚ × ℚ) :=
  if user_txt = "" || self_thesis = "" then Except.ok (0, 0)
  else do
    let aggs ← (scanSentences user_txt).mapM (fun s => do
      let sc ← nli self_thesis s
      pure (agg_max sc))
    pure (maxContraScan aggs)

/-- Embeds `ConcessionService._claim_scores`: the `(claim, ent, con, rel,
bidirectional scores)` tuples. -/
def claim_scores (nli : String → String → Except Unit BiScores)
    (claims : List String) (user_clean : String) :
    Except Unit (List (String × ℚ × ℚ × ℚ × BiScores)) :=
  claims.mapM (fun c => do
    let sc ← nli c user_clean
    let agg := agg_max sc
    pure (c, agg.entailment, agg.contradiction,
      max agg.entailment (max agg.contradiction (1 - agg.neutral)), sc))

/-- Python `max(claim_scores, key=lambda t: t[2])`: the first tuple with the
maximal contradiction (strictly-greater replaces, so ties keep the first).
The source only evaluates it on a non-empty list (`if claims:`). -/
def maxByContra (l : List (String × ℚ × ℚ × ℚ × BiScores)) :
    String × ℚ × ℚ × ℚ × BiScores :=
  match l with
  | [] => ("", 0, 0, 0, ⟨⟨0, 0, 0⟩, ⟨0, 0, 0⟩⟩)
  | x :: xs => xs.foldl (fun best t =>
      if best.2.2.1 < t.2.2.1 then t else best) x

/-- Embeds `_on_topic_from_scores`: either direction shows
`max(ent, con) ≥ topic_signal_min` or `neu ≤ topic_neu_max`. -/
def on_topic_from_scores (scoring : ScoringConfig) (sc : BiScores) : Bool :=
  let has_signal := fun (d : NLIDir) =>
    (scoring.topic_signal_min ≤ max d.entailment d.contradiction) ||
    (d.neutral ≤ scoring.topic_neu_max)
  has_signal sc.p_to_h || has_signal sc.h_to_p

/-- Embeds `NLIJudgePayload` (`app/domain/nli/judge_payload.py`), with the
`policy`/`progress` dicts flattened into named fields. -/
structure NLIJudgePayload where
  topic : String
  stance : Stance
  language : String
  turn_index : ℕ
  user_text : String
  bot_text : String
  thesis_scores : NLIDir
  pair_best : NLIDir
  max_sent_contra : ℚ
  on_topic : Bool
  user_wc : ℕ
  policy : ConcessionPolicy
  progress_positive_judgements : ℕ
  progress_assistant_turns : ℕ
deriving DecidableEq, Repr

/-- Embeds `ConcessionService._build_llm_judge_payload`.  Short-circuits to
`none` (no payload) on: empty conversation, no user turn, no qualifying
assistant turn before the latest user turn, blank topic.  NLI scorer
exceptions are NOT caught here and propagate as `Except.error`, exactly as
in the source (the `try` of `analyze_conversation` starts after this call
returns). -/
def build_llm_judge_payload (nli : String → String → Except Unit BiScores)
    (scoring : ScoringConfig) (conversation : List Turn) (stance : Stance)
    (topic : String) (state : DebateState) :
    Except Unit (Option NLIJudgePayload × String × String) :=
  if conversation = [] then Except.ok (none, "", "")
  else
    match last_index conversation "user" (fun _ => true) none with
    | none => Except.ok (none, "", "")
    | some user_idx =>
      match last_index conversation "assistant"
          (fun m => scoring.min_assistant_words ≤ word_count m.content)
          (some user_idx) with
      | none => Except.ok (none, "", "")
      | some bot_idx =>
        let user_txt := (conversation[user_idx]?.getD ⟨"", ""⟩).content
        let bot_txt := (conversation[bot_idx]?.getD ⟨"", ""⟩).content
        let user_wc := word_count user_txt
        let user_clean := normalize_spaces user_txt
        let thesis := pyStrip topic
        if thesis = "" then Except.ok (none, "", "")
        else do
          let self_scores ← nli thesis user_clean
          let thesis_agg := agg_max self_scores
          let on_topic := on_topic_from_scores scoring self_scores
          let maxres ← max_contra_self_vs_sentences nli thesis user_txt
          let claims := extract_claims bot_txt
          let pair_agg ←
            if claims.isEmpty then
              pure { entailment := 0, contradiction := 0, neutral := 1 }
            else do
              let cs ← claim_scores nli claims user_clean
              pure (agg_max (maxByContra cs).2.2.2.2)
          pure (some
            { topic := thesis, stance := stance, language := state.lang,
              turn_index := state.assistant_turns, user_text := user_txt,
              bot_text := bot_txt, thesis_scores := thesis_agg,
              pair_best := pair_agg, max_sent_contra := maxres.1,
              on_topic := on_topic, user_wc := user_wc,
              policy := state.policy,
              progress_positive_judgements := state.positive_judgements,
              progress_assistant_turns := state.assistant_turns },
            user_txt, bot_txt)

theorem digitChar_isDigit {n : ℕ} (h : n < 10) :
    (Nat.digitChar n).isDigit = true := by
  interval_cases n <;> decide

/-- A string consisting of an integer part, a dot, and exactly two digits. -/
def twoDecimalShape (s : String) : Prop :=
  ∃ intPart frac, s = intPart ++ "." ++ frac ∧ frac.length = 2 ∧
    ∀ c ∈ frac.toList, c.isDigit = true

theorem formatTwoDec_shape (q : ℚ) : twoDecimalShape (formatTwoDec q) := by
  refine ⟨(if roundHalfEven (q * 100) < 0 then "-" else "") ++
      toString ((roundHalfEven (q * 100)).natAbs / 100),
    twoDigits ((roundHalfEven (q * 100)).natAbs % 100), rfl, rfl, ?_⟩
  intro c hc
  have h2 : c = Nat.digitChar ((roundHalfEven (q * 100)).natAbs % 100 / 10 % 10) ∨
      c = Nat.digitChar ((roundHalfEven (q * 100)).natAbs % 100 % 10) := by
    simpa [twoDigits] using hc
  rcases h2 with rfl | rfl <;>
    exact digitChar_isDigit (Nat.mod_lt _ (by norm_num))

theorem END_REASON_MAP_ne_empty {l s : String} (h : END_REASON_MAP l = some s) :
    s ≠ "" := by
  unfold END_REASON_MAP at h
  split_ifs at h
  all_goals (cases h
             try decide)

theorem underscoresToSpaces_ne_empty {s : String} (h : s ≠ "") :
    underscoresToSpaces s ≠ "" := by
  intro hc
  apply h
  have hdata := congrArg String.data hc
  simp only [underscoresToSpaces] at hdata
  have : s.data = [] := by
    exact List.map_eq_nil_iff.mp hdata
  cases s
  simp_all

theorem pyOrStr_ne_empty {a b : String} (hb : b ≠ "") : pyOrStr a b ≠ "" := by
  unfold pyOrStr
  split <;> simp_all

theorem end_prompt_vars_END_REASON (state : DebateState) :
    (end_prompt_vars state).END_REASON =
      (match END_REASON_MAP
          (pyOrStr state.last_judge_reason_label "unspecified_reason") with
       | some sentence => sentence
       | none =>
         if state.end_reason = "" then
           underscoresToSpaces
             (pyOrStr state.last_judge_reason_label "unspecified_reason")
         else state.end_reason) := by
  have hER : (end_prompt_vars state).END_REASON =
      pyOrStr
        (pyOrStr
          ((END_REASON_MAP
            (pyOrStr state.last_judge_reason_label "unspecified_reason")).getD "")
          state.end_reason)
        (underscoresToSpaces
          (pyOrStr state.last_judge_reason_label "unspecified_reason")) := rfl
  rw [hER]
  rcases hmap : END_REASON_MAP
      (pyOrStr state.last_judge_reason_label "unspecified_reason") with _ | v
  · by_cases he : state.end_reason = "" <;> simp [pyOrStr, he]
  · have hv := END_REASON_MAP_ne_empty hmap
    simp [pyOrStr, hv]

/-- C7 counterexample state: a concluded state whose judge reason code is not
in `END_REASON_MAP` and whose `end_reason` is non-empty. -/
def C7cexState : DebateState :=
  { topic := "T", stance := .pro, policy := ⟨1, 9⟩, match_concluded := true,
    end_reason := "custom end", last_judge_reason_label := "weird_code",
    last_judge_confidence := 1 / 2 }

/-- C7 counterexample: the claim says an unknown reason code falls back to
the underscores-replaced code before `state.end_reason`; the code falls back
to `state.end_reason` first.  At this state the code yields `"custom end"`,
not `"weird code"`. -/
theorem C7_counterexample :
    (end_prompt_vars C7cexState).END_REASON = "custom end" ∧
    (end_prompt_vars C7cexState).END_REASON ≠ "weird code" := by
  constructor <;> decide

/-- C7 (amended): the end-variable renderer is total: for every state it
produces a mapping whose `END_REASON` is non-empty and follows the code's
fallback order: the fixed-table sentence for the reason code when the table
has it, otherwise `state.end_reason` when non-empty, otherwise the reason
code with underscores replaced by spaces; `JUDGE_CONFIDENCE` is formatted
with exactly two decimals. -/
theorem C7_end_vars_totality_and_fallback (state : DebateState) :
    (end_prompt_vars state).END_REASON ≠ "" ∧
    (end_prompt_vars state).END_REASON =
      (match END_REASON_MAP
          (pyOrStr state.last_judge_reason_label "unspecified_reason") with
       | some sentence => sentence
       | none =>
         if state.end_reason = "" then
           underscoresToSpaces
             (pyOrStr state.last_judge_reason_label "unspecified_reason")
         else state.end_reason) ∧
    twoDecimalShape (end_prompt_vars state).JUDGE_CONFIDENCE := by
  have hlabel : pyOrStr state.last_judge_reason_label "unspecified_reason" ≠ "" :=
    pyOrStr_ne_empty (by decide)
  refine ⟨?_, end_prompt_vars_END_REASON state, formatTwoDec_shape _⟩
  rw [end_prompt_vars_END_REASON state]
  rcases hmap : END_REASON_MAP
      (pyOrStr state.last_judge_reason_label "unspecified_reason") with _ | v
  · by_cases he : state.end_reason = ""
    · simpa [he] using underscoresToSpaces_ne_empty hlabel
    · simp only [he, if_false]
      exact he
  · simpa using END_REASON_MAP_ne_empty hmap

/-- C9 counterexample state: concluded, with a non-empty `end_reason`. -/
def C9cexState : DebateState :=
  { topic := "Dogs are the best companion", stance := .pro, policy := ⟨2, 3⟩,
    match_concluded := true, positive_judgements := 2,
    end_reason := "policy_threshold_reached" }

/-- C9 counterexample: mutating a concluded state's topic succeeds and is
silently applied (no error), and the guarded `end_reason` write silently
keeps the old value (no error) — both contradicting "rejected with an
error". -/
theorem C9_counterexample :
    C9cexState.assignTopic "changed" =
      Except.ok { C9cexState with topic := "changed" } ∧
    C9cexState.assignStance Stance.con =
      Except.ok { C9cexState with stance := Stance.con } ∧
    C9cexState.writeEndReason "overwritten" = Except.ok C9cexState := by
  refine ⟨rfl, rfl, ?_⟩
  simp [DebateState.writeEndReason, C9cexState]

/-- C9 (amended): there is no immutability enforcement: on a concluded state,
assigning `topic` or `stance` succeeds and is silently applied, and the
orchestrator's guarded `end_reason` write silently leaves a non-empty
`end_reason` unchanged — none of these attempts is rejected with an error. -/
theorem C9_no_mutation_enforcement (s : DebateState) (t : String) (st : Stance)
    (r : String) (hconc : s.match_concluded = true) (hr : s.end_reason ≠ "") :
    (∃ s', s.assignTopic t = Except.ok s' ∧ s'.topic = t ∧
      s'.match_concluded = true) ∧
    (∃ s', s.assignStance st = Except.ok s' ∧ s'.stance = st ∧
      s'.match_concluded = true) ∧
    s.writeEndReason r = Except.ok s := by
  refine ⟨⟨_, rfl, rfl, hconc⟩, ⟨_, rfl, rfl, hconc⟩, ?_⟩
  unfold DebateState.writeEndReason
  rw [if_neg hr]

/-- C9 witness state. -/
def C9wState : DebateState :=
  { topic := "God exists", stance := .con, policy := ⟨1, 9⟩,
    match_concluded := true, end_reason := "max_turns_reached" }

/-- Witness for C9 (amended) at a concrete concluded state. -/
theorem C9_no_mutation_enforcement_witness :
    (C9wState.match_concluded = true ∧ C9wState.end_reason ≠ "") ∧
    ((∃ s', C9wState.assignTopic "t2" = Except.ok s' ∧ s'.topic = "t2" ∧
        s'.match_concluded = true) ∧
     (∃ s', C9wState.assignStance Stance.pro = Except.ok s' ∧
        s'.stance = Stance.pro ∧ s'.match_concluded = true) ∧
     C9wState.writeEndReason "other" = Except.ok C9wState) :=
  ⟨⟨rfl, by decide⟩,
    C9_no_mutation_enforcement C9wState "t2" Stance.pro "other" rfl (by decide)⟩

/-- Case-insensitive literal match of `pat` against the head of `s`,
returning the remainder on success. -/
def dropPat (pat : List Char) (s : List Char) : Option (List Char) :=
  match pat, s with
  | [], rest => some rest
  | _ :: _, [] => none
  | p :: ps, c :: cs => if lowerChar c == p then dropPat ps cs else none

/-- One attempted match of `END_MARKERS_RX`
(`match concluded\.?|debate concluded|debate is over`, case-insensitive) at
the current position, alternatives tried in source order and the optional
trailing dot taken greedily. -/
def matchEndMarker (s : List Char) : Option (List Char) :=
  match dropPat "match concluded".toList s with
  | some r =>
    some (match r with
      | '.' :: r2 => r2
      | _ => r)
  | none =>
    match dropPat "debate concluded".toList s with
    | some r => some r
    | none => dropPat "debate is over".toList s

/-- Structural-fuel worker of the single left-to-right non-overlapping
substitution pass `END_MARKERS_RX.sub('', text)`. -/
def removeEndMarkersFuel : ℕ → List Char → List Char
  | 0, _ => []
  | _, [] => []
  | fuel + 1, c :: rest =>
    match matchEndMarker (c :: rest) with
    | some r => removeEndMarkersFuel fuel r
    | none => c :: removeEndMarkersFuel fuel rest

/-- Embeds `sanitize_end_markers` from `app/utils/text.py`:
`normalize_spaces(END_MARKERS_RX.sub('', text))`. -/
def sanitize_end_markers (text : String) : String :=
  normalize_spaces
    (String.mk (removeEndMarkersFuel text.toList.length text.toList))

/-- Does the text contain a substring matched by `END_MARKERS_RX`?  (Used to
state the sanitization claim.) -/
def hasEndMarkerAux : List Char → Bool
  | [] => false
  | c :: rest => (matchEndMarker (c :: rest)).isSome || hasEndMarkerAux rest

/-- String-level wrapper of `hasEndMarkerAux`. -/
def hasEndMarker (s : String) : Bool := hasEndMarkerAux s.toList

/-- Embeds the `JudgeResult` shape consumed by `analyze_conversation`
(`accept`, `confidence`, `reason`; the `metrics` mapping is never read by
the orchestrator and is omitted). -/
structure VerdictDecision where
  accept : Bool
  confidence : ℚ
  reason : String
deriving DecidableEq, Repr

/-- The external collaborators and configuration of `ConcessionService`:
the NLI scorer and the verdict judge may raise (`Except.error`); the reply
generators (`debate_aware` / `debate_aware_end`) are black-box text
functions.  `llm_judge_min_confidence` defaults to 0.70 as in the
constructor. -/
structure Env where
  nli : String → String → Except Unit BiScores
  judge : NLIJudgePayload → Except Unit VerdictDecision
  gen : List Message → DebateState → String
  genEnd : List Message → EndVars → String
  scoring : ScoringConfig := {}
  llm_judge_min_confidence : ℚ := 7 / 10

/-- Embeds `NoveltyGuard.compute` / `NoveltyGuard._latest_user_novelty`:
novelty of the latest user message against all prior non-empty user
messages, with the working `NoveltyGuard` scorer. -/
def latest_user_novelty (convo : List Turn) (latest_user_idx : ℕ) : ℚ :=
  novelty_score (convo[latest_user_idx]?.getD ⟨"", ""⟩).content
    (((convo.take latest_user_idx).filter
      (fun m => m.role == "user" && m.content != "")).map Turn.content)

/-- Embeds `ConcessionService._latest_user_novelty`, which calls the
service-side `_novelty_score` and therefore raises whenever that raises. -/
def latest_user_novelty_service (convo : List Turn)
    (latest_user_idx : ℕ) : Except Unit ℚ :=
  novelty_score_service (convo[latest_user_idx]?.getD ⟨"", ""⟩).content
    (((convo.take latest_user_idx).filter
      (fun m => m.role == "user" && m.content != "")).map Turn.content)

/-- The novelty value computed in the accept branch of
`analyze_conversation`: the service-side computation runs inside
`try ... except Exception: novelty = 1.0`, so any exception — in the real
program the `STOP_ALL` `NameError` for typical texts — fail-opens the
novelty to 1, and a missing user index also yields 1. -/
def currentNovelty (mapped : List Turn) : ℚ :=
  match
    (match last_index mapped "user" (fun _ => true) none with
     | some i => latest_user_novelty_service mapped i
     | none => Except.ok 1) with
  | Except.ok v => v
  | Except.error _ => 1

/-- The accept-path gating of `analyze_conversation`: the confidence gate
drops the accept silently; the novelty gate overwrites the stored verdict
with `novelty_reject_duplicate`; otherwise `positive_judgements` grows by
exactly 1.  The state passed in has already stored the raw verdict. -/
def applyGates (env : Env) (mapped : List Turn) (d : VerdictDecision)
    (s : DebateState) : DebateState :=
  if d.accept then
    if d.confidence < env.llm_judge_min_confidence then s
    else if currentNovelty mapped < env.scoring.novelty_min then
      s.set_judge false "novelty_reject_duplicate" d.confidence
    else { s with positive_judgements := s.positive_judgements + 1 }
  else s

/-- The judging block of `analyze_conversation`: skipped without a payload;
judge exceptions are caught by the `try` (state unchanged); on success the
raw verdict is stored unconditionally, then the gates run. -/
def judgePhase (env : Env) (mapped : List Turn)
    (payload? : Option NLIJudgePayload) (s : DebateState) : DebateState :=
  match payload? with
  | none => s
  | some p =>
    match env.judge p with
    | Except.error _ => s
    | Except.ok d =>
      applyGates env mapped d (s.set_judge d.accept d.reason d.confidence)

/-- The termination-policy block of `analyze_conversation`: the turn cap is
projected on the reply being produced (`assistant_turns + 1`), and
`end_reason` is only written when still empty, preferring the stored judge
reason label. -/
def concludeCheck (s : DebateState) : DebateState :=
  if s.policy.required_positive_judgements ≤ s.positive_judgements ||
      s.policy.max_assistant_turns ≤ s.assistant_turns + 1 then
    if s.end_reason = "" then
      { s with
        match_concluded := true,
        end_reason :=
          pyOrStr s.last_judge_reason_label
            (if s.policy.required_positive_judgements ≤
                s.positive_judgements
              then "policy_threshold_reached" else "max_turns_reached") }
    else { s with match_concluded := true }
  else s

/-- End rendering via `_render_end_via_llm` → `debate_aware_end` with the
variables of `_end_prompt_vars`. -/
def renderEnd (env : Env) (messages : List Message) (s : DebateState) :
    String :=
  env.genEnd messages (end_prompt_vars s)

/-- The tail of a normal (not-previously-concluded) turn: choose the end
rendering or a normal reply, sanitize and strip it, and increment
`assistant_turns` only when the debate continues. -/
def finishTurn (env : Env) (messages : List Message) (turns : ℕ)
    (s3 : DebateState) : Except Unit (String × DebateState) :=
  Except.ok
    (pyStrip (sanitize_end_markers
      (if s3.match_concluded then renderEnd env messages s3
       else env.gen messages s3)),
     if s3.match_concluded then s3
     else { s3 with assistant_turns := turns + 1 })

/-- Embeds `ConcessionService.analyze_conversation` as a state transformer
returning the reply and the updated state.  `Except.error` models an
uncaught exception (an NLI scorer failure inside the payload builder, which
the source does not catch).  The store lookups/saves and logging are
omitted; as in the source, the `topic`/`stance` arguments used are the ones
on the stored state.  The first step resynchronizes `assistant_turns` with
the transcript; a previously concluded debate short-circuits to end
rendering. -/
def analyze_conversation (env : Env) (messages : List Message)
    (state0 : DebateState) : Except Unit (String × DebateState) :=
  if ({ state0 with
      assistant_turns := count_assistant_turns messages }).match_concluded
  then
    Except.ok
      (pyStrip (sanitize_end_markers (renderEnd env messages
        { state0 with
          assistant_turns := count_assistant_turns messages })),
       { state0 with assistant_turns := count_assistant_turns messages })
  else
    match build_llm_judge_payload env.nli env.scoring
        (map_history messages) state0.stance state0.topic
        { state0 with
          assistant_turns := count_assistant_turns messages } with
    | Except.error e => Except.error e
    | Except.ok (payload?, _user_txt, _bot_txt) =>
      finishTurn env messages (count_assistant_turns messages)
        (concludeCheck (judgePhase env (map_history messages) payload?
          { state0 with
            assistant_turns := count_assistant_turns messages }))

/-- A freshly created per-conversation state: dataclass defaults with the
given topic, stance and policy. -/
def initState (topic : String) (stance : Stance)
    (policy : ConcessionPolicy) : DebateState :=
  { topic := topic, stance := stance, policy := policy }

/-- States reachable from a fresh debate state by any sequence of per-turn
orchestrator runs, with arbitrary collaborators and transcripts at each
step. -/
inductive Reachable : DebateState → Prop
  | init (topic : String) (stance : Stance) (policy : ConcessionPolicy) :
      Reachable (initState topic stance policy)
  | step (env : Env) (messages : List Message) (reply : String)
      (s s' : DebateState) : Reachable s →
      analyze_conversation env messages s = Except.ok (reply, s') →
      Reachable s'

theorem lastIndexFrom_eq_none (convo : List Turn) (role : String)
    (pred : Turn → Bool) (fuel : ℕ)
    (h : ∀ i, i < fuel → ∀ m, convo[i]? = some m →
      ¬(m.role = role ∧ pred m = true)) :
    lastIndexFrom convo role pred fuel = none := by
  induction fuel with
  | zero => rfl
  | succ i ih =>
    have hrec := ih (fun j hj => h j (Nat.lt_succ_of_lt hj))
    rcases hm : convo[i]? with _ | m
    · simp [lastIndexFrom, hm, hrec]
    · have hne := h i (Nat.lt_succ_self i) m hm
      have hcond : (m.role == role && pred m) = false := by
        rw [Bool.and_eq_false_iff]
        by_cases hr : m.role = role
        · right
          by_cases hp : pred m = true
          · exact absurd ⟨hr, hp⟩ hne
          · exact Bool.eq_false_iff.mpr hp
        · left
          exact beq_eq_false_iff_ne.mpr hr
      simp [lastIndexFrom, hm, hcond, hrec]

/-- C8: Payload short-circuit.  For every conversation transcript, the
evidence payload builder returns no payload and raises no exception whenever
the transcript contains no user turn, or contains no assistant turn with
word count at or above the configured minimum before the latest user turn,
or the topic is blank after trimming. -/
theorem C8_payload_short_circuit
    (nli : String → String → Except Unit BiScores) (scoring : ScoringConfig)
    (conversation : List Turn) (stance : Stance) (topic : String)
    (state : DebateState)
    (h : (∀ (i : ℕ) (m : Turn), conversation[i]? = some m →
            m.role ≠ "user") ∨
         (∀ u, last_index conversation "user" (fun _ => true) none = some u →
            ∀ (i : ℕ) (m : Turn), i < u → conversation[i]? = some m →
              m.role = "assistant" →
              word_count m.content < scoring.min_assistant_words) ∨
         pyStrip topic = "") :
    build_llm_judge_payload nli scoring conversation stance topic state =
      Except.ok (none, "", "") := by
  unfold build_llm_judge_payload
  by_cases hc : conversation = []
  · rw [if_pos hc]
  · rw [if_neg hc]
    rcases hu : last_index conversation "user" (fun _ => true) none with _ | u
    · rfl
    · rcases h with h1 | h2 | h3
      · exfalso
        have : last_index conversation "user" (fun _ => true) none = none :=
          lastIndexFrom_eq_none _ _ _ _
            (fun i _ m hm hcon => h1 i m hm hcon.1)
        rw [hu] at this
        cases this
      · have hb : last_index conversation "assistant"
            (fun m => decide (scoring.min_assistant_words ≤ word_count m.content))
            (some u) = none := by
          apply lastIndexFrom_eq_none
          intro i hi m hm hcon
          have hwc := h2 u hu i m (by simpa using hi) hm hcon.1
          have : scoring.min_assistant_words ≤ word_count m.content := by
            have := hcon.2
            simpa using this
          omega
        simp only [last_index] at hb ⊢
        rw [hb]
      · rcases hb : last_index conversation "assistant"
            (fun m => decide (scoring.min_assistant_words ≤ word_count m.content))
            (some u) with _ | b
        · simp only [last_index] at hb ⊢
          rw [hb]
        · simp only [last_index] at hb ⊢
          rw [hb]
          simp [h3]

/-- Witness for C8: with a raising NLI scorer and a blank topic the builder
still returns no payload and no exception. -/
theorem C8_payload_short_circuit_witness :
    ((∀ (i : ℕ) (m : Turn),
        ([⟨"assistant", "hi"⟩, ⟨"user", "hello"⟩] : List Turn)[i]? = some m →
        m.role ≠ "user") ∨
     (∀ u, last_index [⟨"assistant", "hi"⟩, ⟨"user", "hello"⟩] "user"
          (fun _ => true) none = some u →
        ∀ (i : ℕ) (m : Turn), i < u →
          ([⟨"assistant", "hi"⟩, ⟨"user", "hello"⟩] : List Turn)[i]? = some m →
          m.role = "assistant" →
          word_count m.content < ScoringConfig.min_assistant_words {}) ∨
     pyStrip "  " = "") ∧
    build_llm_judge_payload (fun _ _ => Except.error ()) {}
      [⟨"assistant", "hi"⟩, ⟨"user", "hello"⟩] Stance.pro "  "
      { topic := "  ", stance := Stance.pro, policy := ⟨1, 9⟩ } =
      Except.ok (none, "", "") :=
  ⟨Or.inr (Or.inr (by decide)),
    C8_payload_short_circuit (fun _ _ => Except.error ()) {}
      [⟨"assistant", "hi"⟩, ⟨"user", "hello"⟩] Stance.pro "  "
      { topic := "  ", stance := Stance.pro, policy := ⟨1, 9⟩ }
      (Or.inr (Or.inr (by decide)))⟩

theorem le_foldl_max (l : List NLIDir) (x : ℚ) :
    x ≤ l.foldl (fun acc a => max acc a.contradiction) x := by
  induction l generalizing x with
  | nil => simp
  | cons a t ih =>
    simp only [List.foldl_cons]
    exact le_trans (le_max_left x a.contradiction) (ih _)

theorem foldl_max_attained (l : List NLIDir) (x : ℚ) :
    l.foldl (fun acc a => max acc a.contradiction) x = x ∨
    ∃ b ∈ l, b.contradiction =
      l.foldl (fun acc a => max acc a.contradiction) x := by
  induction l generalizing x with
  | nil => left; rfl
  | cons a t ih =>
    rcases ih (max x a.contradiction) with h | ⟨b, hb, hbe⟩
    · rcases le_or_lt a.contradiction x with hle | hlt
      · left
        simp only [List.foldl_cons, h]
        exact max_eq_left hle
      · right
        refine ⟨a, List.mem_cons_self a t, ?_⟩
        simp only [List.foldl_cons, h]
        exact (max_eq_right hlt.le).symm
    · right
      exact ⟨b, List.mem_cons_of_mem a hb, by simpa [List.foldl_cons] using hbe⟩

theorem foldl_scanStep_spec (aggs : List NLIDir) (m e : ℚ) :
    aggs.foldl scanStep (m, e) =
      (aggs.foldl (fun acc a => max acc a.contradiction) m,
       match aggs.reverse.find?
           (fun a => a.contradiction ==
             aggs.foldl (fun acc a => max acc a.contradiction) m) with
       | some b => b.entailment
       | none => e) := by
  induction aggs generalizing m e with
  | nil => simp
  | cons a t ih =>
    simp only [List.foldl_cons, List.reverse_cons, List.find?_append]
    by_cases hle : m ≤ a.contradiction
    · have hstep : scanStep (m, e) a = (a.contradiction, a.entailment) := by
        simp [scanStep, hle]
      rw [hstep, ih a.contradiction a.entailment, max_eq_right hle]
      rcases hf : t.reverse.find?
          (fun b => b.contradiction ==
            t.foldl (fun acc x => max acc x.contradiction) a.contradiction)
          with _ | b
      · rcases foldl_max_attained t a.contradiction with h | ⟨b, hb, hbe⟩
        · have hpa : (a.contradiction ==
              t.foldl (fun acc x => max acc x.contradiction)
                a.contradiction) = true := by
            simp [h]
          simp [hf, hpa]
        · exfalso
          have hnone := List.find?_eq_none.mp hf b (by simpa using hb)
          simp [hbe] at hnone
      · simp [hf]
    · have hstep : scanStep (m, e) a = (m, e) := by
        simp [scanStep, hle]
      rw [hstep, ih m e, max_eq_left (le_of_not_le hle)]
      rcases hf : t.reverse.find?
          (fun b => b.contradiction ==
            t.foldl (fun acc x => max acc x.contradiction) m) with _ | b
      · have hlt : a.contradiction <
            t.foldl (fun acc x => max acc x.contradiction) m :=
          lt_of_lt_of_le (lt_of_not_le hle) (le_foldl_max t m)
        have hpa : (a.contradiction ==
            t.foldl (fun acc x => max acc x.contradiction) m) = false := by
          simp [hlt.ne]
        simp [hf, hpa]
      · simp [hf]

/-- The aggregate scores of the candidate sentences of the scan, for a
non-raising NLI scorer `f`. -/
def scanAggs (f : String → String → BiScores) (thesis user_txt : String) :
    List NLIDir :=
  if user_txt = "" || thesis = "" then []
  else (scanSentences user_txt).map (fun s => agg_max (f thesis s))

theorem mapM_agg_ok (g : String → BiScores) (l : List String) :
    (l.mapM (fun s => do
      let sc ← (Except.ok (g s) : Except Unit BiScores)
      pure (agg_max sc))) =
      Except.ok (l.map (fun s => agg_max (g s))) := by
  induction l with
  | nil => rfl
  | cons a t ih =>
    rw [List.mapM_cons, ih]
    rfl

/-- C6 (amended): in the sentence scan, the retained contradiction is the
maximum of 0 and the candidate sentences' aggregated contradiction scores,
and the retained entailment comes from the LAST candidate attaining that
maximum in original order (the source updates on `>=`, so ties overwrite;
the claim's "first such sentence" is what fails), or 0 when no candidate
attains it. -/
theorem C6_sentence_scan_max_last_tie (f : String → String → BiScores)
    (thesis user_txt : String) :
    max_contra_self_vs_sentences (fun a b => Except.ok (f a b)) thesis
        user_txt =
      Except.ok
        ((scanAggs f thesis user_txt).foldl
            (fun acc a => max acc a.contradiction) 0,
         match (scanAggs f thesis user_txt).reverse.find?
             (fun a => a.contradiction ==
               (scanAggs f thesis user_txt).foldl
                 (fun acc a => max acc a.contradiction) 0) with
         | some b => b.entailment
         | none => 0) := by
  by_cases hu : user_txt = ""
  · simp [max_contra_self_vs_sentences, scanAggs, hu]
  · by_cases ht : thesis = ""
    · simp [max_contra_self_vs_sentences, scanAggs, hu, ht]
    · have hSA : scanAggs f thesis user_txt =
          (scanSentences user_txt).map (fun s => agg_max (f thesis s)) := by
        unfold scanAggs
        rw [if_neg (by simp [hu, ht])]
      rw [hSA]
      unfold max_contra_self_vs_sentences
      rw [if_neg (by simp [hu, ht]),
        mapM_agg_ok (fun s => f thesis s) (scanSentences user_txt)]
      show Except.ok (maxContraScan
        ((scanSentences user_txt).map (fun s => agg_max (f thesis s)))) = _
      unfold maxContraScan
      rw [foldl_scanStep_spec]

/-- The NLI stub of the C6 counterexample: both candidate sentences score
contradiction 1/2, with entailments 3/10 and 9/10. -/
def C6f (_premise hypothesis : String) : BiScores :=
  if hypothesis = "Alpha beta gamma." then
    ⟨⟨3 / 10, 1 / 2, 1 / 5⟩, ⟨3 / 10, 1 / 2, 1 / 5⟩⟩
  else
    ⟨⟨9 / 10, 1 / 2, 1 / 10⟩, ⟨9 / 10, 1 / 2, 1 / 10⟩⟩

/-- Tie-breaking as the claim words it (comparison definition written from
the spec sentence, not from the source): the FIRST maximal contradiction is
retained. -/
def maxContraScanFirstTie (aggs : List NLIDir) : ℚ × ℚ :=
  aggs.foldl (fun acc a =>
    if acc.1 < a.contradiction then (a.contradiction, a.entailment) else acc)
    (0, 0)

/-- C6 counterexample: on two sentences with tied contradiction 1/2 and
entailments 3/10 then 9/10, the source retains the pair of the LAST maximal
sentence, `(1/2, 9/10)`, while the claim's first-tie rule would retain
`(1/2, 3/10)`. -/
theorem C6_counterexample :
    max_contra_self_vs_sentences (fun a b => Except.ok (C6f a b))
        "God exists." "Alpha beta gamma. Delta epsilon zeta." =
      Except.ok (1 / 2, 9 / 10) ∧
    maxContraScanFirstTie
        ((scanSentences "Alpha beta gamma. Delta epsilon zeta.").map
          (fun s => agg_max (C6f "God exists." s))) = (1 / 2, 3 / 10) ∧
    ((1 / 2 : ℚ), (9 / 10 : ℚ)) ≠ ((1 / 2 : ℚ), (3 / 10 : ℚ)) := by
  have hs : scanSentences "Alpha beta gamma. Delta epsilon zeta." =
      ["Alpha beta gamma.", "Delta epsilon zeta."] := by decide
  have hmap : (["Alpha beta gamma.", "Delta epsilon zeta."].map
      (fun s => agg_max (C6f "God exists." s))) =
      [⟨3 / 10, 1 / 2, 1 / 5⟩, ⟨9 / 10, 1 / 2, 1 / 10⟩] := by
    simp [C6f, agg_max]
  refine ⟨?_, ?_, by norm_num⟩
  · unfold max_contra_self_vs_sentences
    rw [if_neg (by decide), hs,
      mapM_agg_ok (fun s => C6f "God exists." s)
        ["Alpha beta gamma.", "Delta epsilon zeta."], hmap]
    show Except.ok (maxContraScan
      [⟨3 / 10, 1 / 2, 1 / 5⟩, ⟨9 / 10, 1 / 2, 1 / 10⟩]) = _
    norm_num [maxContraScan, scanStep]
  · rw [hs, hmap]
    norm_num [maxContraScanFirstTie]

theorem set_judge_preserves (s : DebateState) (a : Bool) (r : String)
    (c : ℚ) :
    ((s.set_judge a r c).match_concluded = s.match_concluded) ∧
    ((s.set_judge a r c).positive_judgements = s.positive_judgements) ∧
    ((s.set_judge a r c).assistant_turns = s.assistant_turns) ∧
    ((s.set_judge a r c).policy = s.policy) ∧
    ((s.set_judge a r c).end_reason = s.end_reason) :=
  ⟨rfl, rfl, rfl, rfl, rfl⟩

theorem applyGates_preserves (env : Env) (mapped : List Turn)
    (d : VerdictDecision) (s : DebateState) :
    ((applyGates env mapped d s).match_concluded = s.match_concluded) ∧
    ((applyGates env mapped d s).assistant_turns = s.assistant_turns) ∧
    ((applyGates env mapped d s).policy = s.policy) ∧
    ((applyGates env mapped d s).end_reason = s.end_reason) := by
  unfold applyGates DebateState.set_judge
  split_ifs <;> exact ⟨rfl, rfl, rfl, rfl⟩

theorem judgePhase_preserves (env : Env) (mapped : List Turn)
    (payload? : Option NLIJudgePayload) (s : DebateState) :
    ((judgePhase env mapped payload? s).match_concluded =
      s.match_concluded) ∧
    ((judgePhase env mapped payload? s).assistant_turns =
      s.assistant_turns) ∧
    ((judgePhase env mapped payload? s).policy = s.policy) ∧
    ((judgePhase env mapped payload? s).end_reason = s.end_reason) := by
  unfold judgePhase
  rcases payload? with _ | p
  · exact ⟨rfl, rfl, rfl, rfl⟩
  · rcases hj : env.judge p with e | d
    · simp [hj]
    · simp only [hj]
      have h1 := applyGates_preserves env mapped d
        (s.set_judge d.accept d.reason d.confidence)
      have h2 := set_judge_preserves s d.accept d.reason d.confidence
      exact ⟨h1.1.trans h2.1, h1.2.1.trans h2.2.2.1,
        h1.2.2.1.trans h2.2.2.2.1, h1.2.2.2.trans h2.2.2.2.2⟩

theorem concludeCheck_preserves (s : DebateState) :
    ((concludeCheck s).positive_judgements = s.positive_judgements) ∧
    ((concludeCheck s).assistant_turns = s.assistant_turns) ∧
    ((concludeCheck s).policy = s.policy) ∧
    ((concludeCheck s).last_judge_reason_label =
      s.last_judge_reason_label) ∧
    ((concludeCheck s).last_judge_accept = s.last_judge_accept) ∧
    ((concludeCheck s).last_judge_confidence = s.last_judge_confidence) := by
  unfold concludeCheck
  split_ifs <;> exact ⟨rfl, rfl, rfl, rfl, rfl, rfl⟩

theorem concludeCheck_match_concluded (s : DebateState) :
    (concludeCheck s).match_concluded = true ↔
      (s.match_concluded = true ∨
       s.policy.required_positive_judgements ≤ s.positive_judgements ∨
       s.policy.max_assistant_turns ≤ s.assistant_turns + 1) := by
  unfold concludeCheck
  split_ifs with h h2 <;> simp_all

theorem concludeCheck_end_reason_cap (s : DebateState)
    (hcap : s.policy.max_assistant_turns ≤ s.assistant_turns + 1)
    (hm : ¬ s.policy.required_positive_judgements ≤ s.positive_judgements)
    (her : s.end_reason = "") :
    (concludeCheck s).end_reason =
      pyOrStr s.last_judge_reason_label "max_turns_reached" := by
  unfold concludeCheck
  rw [if_pos (by simp [hcap]), if_pos her]
  simp [hm]

theorem analyze_eq_of_build (env : Env) (messages : List Message)
    (s : DebateState) (payload? : Option NLIJudgePayload) (u b : String)
    (hpre : s.match_concluded = false)
    (hbuild : build_llm_judge_payload env.nli env.scoring
        (map_history messages) s.stance s.topic
        { s with assistant_turns := count_assistant_turns messages } =
      Except.ok (payload?, u, b)) :
    analyze_conversation env messages s =
      finishTurn env messages (count_assistant_turns messages)
        (concludeCheck (judgePhase env (map_history messages) payload?
          { s with assistant_turns := count_assistant_turns messages })) := by
  unfold analyze_conversation
  rw [if_neg (by simp [hpre]), hbuild]

theorem analyze_error_of_build (env : Env) (messages : List Message)
    (s : DebateState) (e : Unit)
    (hpre : s.match_concluded = false)
    (hbuild : build_llm_judge_payload env.nli env.scoring
        (map_history messages) s.stance s.topic
        { s with assistant_turns := count_assistant_turns messages } =
      Except.error e) :
    analyze_conversation env messages s = Except.error e := by
  unfold analyze_conversation
  rw [if_neg (by simp [hpre]), hbuild]

theorem finishTurn_ok (env : Env) (messages : List Message) (turns : ℕ)
    (s3 : DebateState) (reply : String) (s' : DebateState)
    (h : finishTurn env messages turns s3 = Except.ok (reply, s')) :
    reply = pyStrip (sanitize_end_markers
      (if s3.match_concluded then renderEnd env messages s3
       else env.gen messages s3)) ∧
    s' = (if s3.match_concluded then s3
      else { s3 with assistant_turns := turns + 1 }) := by
  unfold finishTurn at h
  simp only [Except.ok.injEq, Prod.mk.injEq] at h
  exact ⟨h.1.symm, h.2.symm⟩

/-- C1 (amended): transition soundness with the projected turn cap: any
orchestrator run that concludes a previously ongoing debate leaves a state
in which the positives threshold is met or the turn cap is met by the
projected count `assistant_turns + 1` (the stored `assistant_turns` itself
may be one below the cap, which is what fails in the claim as stated). -/
theorem C1_transition_soundness (env : Env) (messages : List Message)
    (s : DebateState) (reply : String) (s' : DebateState)
    (hrun : analyze_conversation env messages s = Except.ok (reply, s'))
    (hpre : s.match_concluded = false)
    (hpost : s'.match_concluded = true) :
    s'.policy.required_positive_judgements ≤ s'.positive_judgements ∨
    s'.policy.max_assistant_turns ≤ s'.assistant_turns + 1 := by
  rcases hb : build_llm_judge_payload env.nli env.scoring
      (map_history messages) s.stance s.topic
      { s with assistant_turns := count_assistant_turns messages }
      with e | ⟨payload?, u, b⟩
  · rw [analyze_error_of_build env messages s e hpre hb] at hrun
    cases hrun
  · rw [analyze_eq_of_build env messages s payload? u b hpre hb] at hrun
    obtain ⟨hreply, hs'⟩ := finishTurn_ok _ _ _ _ _ _ hrun
    by_cases hconc : (concludeCheck (judgePhase env (map_history messages)
        payload? { s with
          assistant_turns := count_assistant_turns messages })).match_concluded = true
    · rw [if_pos hconc] at hs'
      subst hs'
      rcases (concludeCheck_match_concluded _).mp hconc with h0 | hm | hcap
      · exfalso
        have hj := (judgePhase_preserves env (map_history messages) payload?
          { s with assistant_turns := count_assistant_turns messages }).1
        rw [h0] at hj
        exact absurd hj.symm (by simp [hpre])
      · left
        rw [(concludeCheck_preserves _).1, (concludeCheck_preserves _).2.2.1]
        exact hm
      · right
        rw [(concludeCheck_preserves _).2.1,
          (concludeCheck_preserves _).2.2.1]
        exact hcap
    · rw [if_neg hconc] at hs'
      subst hs'
      exact absurd hpost (by simpa using hconc)

/-- The environment of the C1 counterexample run (the judge is never
reached: the transcript has no user turn, so no payload is built). -/
def C1env : Env :=
  { nli := fun _ _ => Except.ok ⟨⟨0, 0, 1⟩, ⟨0, 0, 1⟩⟩,
    judge := fun _ => Except.error (),
    gen := fun _ _ => "Reply.",
    genEnd := fun _ _ => "End." }

/-- The C1 counterexample transcript: two assistant messages, no user. -/
def C1msgs : List Message := [⟨"bot", "a"⟩, ⟨"bot", "b"⟩]

/-- The stored state right after the concluding run of the C1
counterexample. -/
def C1cexState : DebateState :=
  { topic := "T", stance := .pro, policy := ⟨2, 3⟩, assistant_turns := 2,
    match_concluded := true, end_reason := "max_turns_reached" }

/-- C1 counterexample: with policy `required = 2, max_turns = 3`, one run on
a transcript with 2 assistant turns concludes the debate (projected cap
`2 + 1 ≥ 3`), and the stored concluded state has `positive_judgements = 0 <
2` and `assistant_turns = 2 < 3` — neither disjunct of the claimed
invariant holds in the stored state. -/
theorem C1_counterexample :
    Reachable C1cexState ∧ C1cexState.match_concluded = true ∧
    ¬(C1cexState.policy.required_positive_judgements ≤
        C1cexState.positive_judgements ∨
      C1cexState.policy.max_assistant_turns ≤ C1cexState.assistant_turns) :=
  ⟨Reachable.step C1env C1msgs "End." (initState "T" Stance.pro ⟨2, 3⟩)
      C1cexState (Reachable.init "T" Stance.pro ⟨2, 3⟩) rfl,
    rfl, by decide⟩

/-- Witness for C1 (amended) at the concrete concluding run of the
counterexample scenario. -/
theorem C1_transition_soundness_witness :
    (analyze_conversation C1env C1msgs (initState "T" Stance.pro ⟨2, 3⟩) =
        Except.ok ("End.", C1cexState) ∧
      (initState "T" Stance.pro ⟨2, 3⟩).match_concluded = false ∧
      C1cexState.match_concluded = true) ∧
    (C1cexState.policy.required_positive_judgements ≤
        C1cexState.positive_judgements ∨
      C1cexState.policy.max_assistant_turns ≤
        C1cexState.assistant_turns + 1) :=
  ⟨⟨rfl, rfl, rfl⟩,
    C1_transition_soundness C1env C1msgs (initState "T" Stance.pro ⟨2, 3⟩)
      "End." C1cexState rfl rfl rfl⟩

/-- Explicitly-constructed rational (already in lowest terms), used in
concrete scenarios so that kernel evaluation never needs `Rat` arithmetic. -/
def ratMk (n : ℤ) (d : ℕ) (h1 : d ≠ 0) (h2 : n.natAbs.Coprime d) : ℚ :=
  ⟨n, d, h1, h2⟩

/-- A constant never-failing NLI scorer used by concrete scenarios. -/
def constNLI : String → String → Except Unit BiScores :=
  fun _ _ => Except.ok ⟨⟨0, 0, 1⟩, ⟨0, 0, 1⟩⟩

/-- An assistant turn that is one long question: 13 words (≥ the minimum 8),
but `extract_claims` drops it, so no claim pairing (and no `1 - neu`
arithmetic) happens in concrete runs. -/
def botQuestionText : String :=
  "Could you maybe explain which of these arguments is most convincing to you?"

/-- The user turn of the concrete scenarios (a single declarative
sentence). -/
def userReplyText : String := "Cats are clearly better companions."

/-- C2 (amended): when a run concludes a previously ongoing debate with the
positives threshold not met (the turn-cap path), the stored `end_reason` is
the judge's last stored reason label when non-empty, else
`"max_turns_reached"`.  In particular a never-accepting judge that returns a
non-empty reason code yields that code, not `"max_turns_reached"`. -/
theorem C2_end_reason_priority (env : Env) (messages : List Message)
    (s : DebateState) (reply : String) (s' : DebateState)
    (hrun : analyze_conversation env messages s = Except.ok (reply, s'))
    (hpre : s.match_concluded = false) (her : s.end_reason = "")
    (hpost : s'.match_concluded = true)
    (hnotmeet : s'.positive_judgements <
      s'.policy.required_positive_judgements) :
    s'.end_reason =
      pyOrStr s'.last_judge_reason_label "max_turns_reached" := by
  rcases hb : build_llm_judge_payload env.nli env.scoring
      (map_history messages) s.stance s.topic
      { s with assistant_turns := count_assistant_turns messages }
      with e | ⟨payload?, u, b⟩
  · rw [analyze_error_of_build env messages s e hpre hb] at hrun
    cases hrun
  · rw [analyze_eq_of_build env messages s payload? u b hpre hb] at hrun
    obtain ⟨hreply, hs'⟩ := finishTurn_ok _ _ _ _ _ _ hrun
    set s2 := judgePhase env (map_history messages) payload?
      { s with assistant_turns := count_assistant_turns messages } with hs2def
    by_cases hconc : (concludeCheck s2).match_concluded = true
    · rw [if_pos hconc] at hs'
      subst hs'
      have hpres := concludeCheck_preserves s2
      have hjp := judgePhase_preserves env (map_history messages) payload?
        { s with assistant_turns := count_assistant_turns messages }
      have hmc2 : s2.match_concluded = false := by
        rw [hs2def, hjp.1]
        exact hpre
      have her2 : s2.end_reason = "" := by
        rw [hs2def, hjp.2.2.2]
        exact her
      rw [hpres.1, hpres.2.2.1] at hnotmeet
      have hnm2 : ¬ s2.policy.required_positive_judgements ≤
          s2.positive_judgements := by omega
      rcases (concludeCheck_match_concluded s2).mp hconc with h0 | hm | hcap
      · rw [hmc2] at h0
        cases h0
      · exact absurd hm hnm2
      · rw [concludeCheck_end_reason_cap s2 hcap hnm2 her2,
          hpres.2.2.2.1]
    · rw [if_neg hconc] at hs'
      subst hs'
      exact absurd hpost (by simpa using hconc)

/-- The C2 counterexample environment: a judge that never accepts and always
returns the non-empty reason code `off_topic`. -/
def C2env : Env :=
  { nli := constNLI,
    judge := fun _ => Except.ok ⟨false, 1, "off_topic"⟩,
    gen := fun _ _ => "Reply.",
    genEnd := fun _ _ => "The debate ends." }

/-- Four assistant turns plus the latest user turn: the next reply is the
5th assistant turn, hitting `max_assistant_turns = 5`. -/
def C2msgs : List Message :=
  [⟨"bot", botQuestionText⟩, ⟨"bot", botQuestionText⟩,
   ⟨"bot", botQuestionText⟩, ⟨"bot", botQuestionText⟩,
   ⟨"user", userReplyText⟩]

/-- The C2 state: `required_positive_judgements = 10`,
`max_assistant_turns = 5`. -/
def C2state : DebateState :=
  { topic := "Dogs are the best companion", stance := .pro,
    policy := ⟨10, 5⟩ }

/-- The stored state after the concluding C2 run. -/
def C2finalState : DebateState :=
  { topic := "Dogs are the best companion", stance := .pro,
    policy := ⟨10, 5⟩, assistant_turns := 4, match_concluded := true,
    end_reason := "off_topic", last_judge_accept := false,
    last_judge_reason_label := "off_topic", last_judge_confidence := 1 }

/-- C2 counterexample: with `required = 10`, `max_turns = 5` and a Judge
that never accepts but reports reason `off_topic`, the concluding run sets
`end_reason = "off_topic"` (the judge's last reason takes priority), not
`"max_turns_reached"` as the claim states. -/
theorem C2_counterexample :
    analyze_conversation C2env C2msgs C2state =
      Except.ok ("The debate ends.", C2finalState) ∧
    C2finalState.match_concluded = true ∧
    C2finalState.end_reason = "off_topic" ∧
    C2finalState.end_reason ≠ "max_turns_reached" :=
  ⟨rfl, rfl, rfl, by decide⟩

/-- Witness for C2 (amended) at the concrete concluding run. -/
theorem C2_end_reason_priority_witness :
    (analyze_conversation C2env C2msgs C2state =
        Except.ok ("The debate ends.", C2finalState) ∧
      C2state.match_concluded = false ∧ C2state.end_reason = "" ∧
      C2finalState.match_concluded = true ∧
      C2finalState.positive_judgements <
        C2finalState.policy.required_positive_judgements) ∧
    C2finalState.end_reason =
      pyOrStr C2finalState.last_judge_reason_label "max_turns_reached" :=
  ⟨⟨rfl, rfl, rfl, rfl, by decide⟩,
    C2_end_reason_priority C2env C2msgs C2state "The debate ends."
      C2finalState rfl rfl rfl rfl (by decide)⟩

/-- The C3 environment: an always-accepting judge (confidence 1, reason
`strict_thesis_contradiction`, as the repository's own novelty-guard
integration test uses), with the default thresholds written as reduced
rationals. -/
def C3dupEnv : Env :=
  { nli := constNLI,
    judge := fun _ =>
      Except.ok ⟨true, 1, "strict_thesis_contradiction"⟩,
    gen := fun _ _ => "Reply.",
    genEnd := fun _ _ => "End.",
    scoring :=
      { novelty_min := ratMk 1 4 (by norm_num) (by norm_num),
        min_assistant_words := 8,
        topic_signal_min := ratMk 1 2 (by norm_num) (by norm_num),
        topic_neu_max := ratMk 1 2 (by norm_num) (by norm_num) },
    llm_judge_min_confidence := ratMk 7 10 (by norm_num) (by norm_num) }

/-- Round 1 of the C3 failing scenario: a qualifying assistant turn, then
the user turn. -/
def C3round1Msgs : List Message :=
  [⟨"bot", botQuestionText⟩, ⟨"user", userReplyText⟩]

/-- Round 2: the byte-identical duplicate user turn is appended (the shape
of the repository's `test_novelty_guard_blocks_duplicate_accept`). -/
def C3round2Msgs : List Message :=
  [⟨"bot", botQuestionText⟩, ⟨"user", userReplyText⟩,
   ⟨"user", userReplyText⟩]

/-- The fresh C3 state: policy `required = 3, max_turns = 9`, so neither
run concludes. -/
def C3dupState0 : DebateState :=
  { topic := "Dogs are the best companion", stance := .pro,
    policy := ⟨3, 9⟩ }

/-- The state after round 1: the first accept is counted. -/
def C3dupState1 : DebateState :=
  { topic := "Dogs are the best companion", stance := .pro,
    policy := ⟨3, 9⟩, assistant_turns := 2, positive_judgements := 1,
    last_judge_accept := true,
    last_judge_reason_label := "strict_thesis_contradiction",
    last_judge_confidence := 1 }

/-- The state after round 2: the duplicate is counted again (the novelty
gate fail-opened), and the stored reason is still the judge's. -/
def C3dupState2 : DebateState :=
  { topic := "Dogs are the best companion", stance := .pro,
    policy := ⟨3, 9⟩, assistant_turns := 2, positive_judgements := 2,
    last_judge_accept := true,
    last_judge_reason_label := "strict_thesis_contradiction",
    last_judge_confidence := 1 }

/-- C3: the novelty gate is inoperative in the orchestrator.  The intended
novelty metric (the working `NoveltyGuard` copy, §4.2) scores the
byte-identical duplicate at 0 — below `novelty_min = 1/4` — but the
orchestrator computes novelty with `ConcessionService._novelty_score`,
which raises (`STOP_ALL` undefined), and the `except` fail-opens the value
to 1.  Hence the duplicate turn still increments `positive_judgements` to 2
and `last_judge` keeps the judge's reason instead of
`novelty_reject_duplicate`, contradicting the claim's gating iff (and the
repository's own integration test). -/
theorem C3_novelty_gate_inoperative :
    novelty_score userReplyText [userReplyText] = 0 ∧
    novelty_score_service userReplyText [userReplyText] =
      Except.error () ∧
    currentNovelty (map_history C3round2Msgs) = 1 ∧
    analyze_conversation C3dupEnv C3round1Msgs C3dupState0 =
      Except.ok ("Reply.", C3dupState1) ∧
    analyze_conversation C3dupEnv C3round2Msgs C3dupState1 =
      Except.ok ("Reply.", C3dupState2) ∧
    C3dupState2.positive_judgements =
      C3dupState1.positive_judgements + 1 ∧
    C3dupState2.last_judge_reason_label ≠ "novelty_reject_duplicate" :=
  ⟨novelty_score_self userReplyText (by decide), rfl, rfl, rfl, rfl, rfl,
    by decide⟩

/-- C4 (amended): judge failures are caught — when a payload was built and
the external judge raises, the turn still completes with a reply and the
judge-related state (positive judgements, stored verdict) is unchanged.
NLI scorer failures during payload building, however, are NOT caught: they
propagate out of `analyze_conversation` (the source's `try` begins only
after the payload builder returns). -/
theorem C4_collaborator_failure_handling (env : Env)
    (messages : List Message) (s : DebateState)
    (hpre : s.match_concluded = false) :
    (∀ p u b, build_llm_judge_payload env.nli env.scoring
        (map_history messages) s.stance s.topic
        { s with assistant_turns := count_assistant_turns messages } =
        Except.ok (some p, u, b) →
      env.judge p = Except.error () →
      ∃ reply s', analyze_conversation env messages s =
          Except.ok (reply, s') ∧
        s'.positive_judgements = s.positive_judgements ∧
        s'.last_judge_accept = s.last_judge_accept ∧
        s'.last_judge_reason_label = s.last_judge_reason_label) ∧
    (∀ e, build_llm_judge_payload env.nli env.scoring
        (map_history messages) s.stance s.topic
        { s with assistant_turns := count_assistant_turns messages } =
        Except.error e →
      analyze_conversation env messages s = Except.error e) := by
  constructor
  · intro p u b hbuild hjerr
    rw [analyze_eq_of_build env messages s (some p) u b hpre hbuild]
    have hjp : judgePhase env (map_history messages) (some p)
        { s with assistant_turns := count_assistant_turns messages } =
        { s with assistant_turns := count_assistant_turns messages } := by
      simp only [judgePhase, hjerr]
    rw [hjp]
    set st := { s with
      assistant_turns := count_assistant_turns messages } with hstdef
    refine ⟨pyStrip (sanitize_end_markers
        (if (concludeCheck st).match_concluded then
          renderEnd env messages (concludeCheck st)
        else env.gen messages (concludeCheck st))),
      (if (concludeCheck st).match_concluded then concludeCheck st
       else { concludeCheck st with
         assistant_turns := count_assistant_turns messages + 1 }),
      rfl, ?_, ?_, ?_⟩
    · split_ifs <;> simp [(concludeCheck_preserves st).1, hstdef]
    · split_ifs <;>
        simp [(concludeCheck_preserves st).2.2.2.2.1, hstdef]
    · split_ifs <;>
        simp [(concludeCheck_preserves st).2.2.2.1, hstdef]
  · intro e hbuild
    exact analyze_error_of_build env messages s e hpre hbuild

/-- A `ScoringConfig` with the default threshold values written as
already-reduced rationals (so that concrete runs evaluate by `rfl`). -/
def kernelScoring : ScoringConfig :=
  { novelty_min := ratMk 1 4 (by norm_num) (by norm_num),
    min_assistant_words := 8,
    topic_signal_min := ratMk 1 2 (by norm_num) (by norm_num),
    topic_neu_max := ratMk 1 2 (by norm_num) (by norm_num) }

/-- The C4 environment whose NLI scorer always raises. -/
def C4errEnv : Env :=
  { nli := fun _ _ => Except.error (),
    judge := fun _ => Except.ok ⟨false, 1, "x"⟩,
    gen := fun _ _ => "Reply.",
    genEnd := fun _ _ => "End." }

/-- The C4 environment whose verdict judge always raises. -/
def C4jEnv : Env :=
  { nli := constNLI,
    judge := fun _ => Except.error (),
    gen := fun _ _ => "Reply.",
    genEnd := fun _ _ => "End.",
    scoring := kernelScoring,
    llm_judge_min_confidence := ratMk 7 10 (by norm_num) (by norm_num) }

/-- The C4 transcript: a qualifying assistant turn, then the user turn. -/
def C4msgs : List Message :=
  [⟨"bot", botQuestionText⟩, ⟨"user", userReplyText⟩]

/-- The C4 state (ongoing, far from both thresholds). -/
def C4state : DebateState :=
  { topic := "Dogs are the best companion", stance := .pro,
    policy := ⟨2, 9⟩ }

/-- The payload built in the C4 judge-failure run. -/
def C4payload : NLIJudgePayload :=
  { topic := "Dogs are the best companion", stance := .pro,
    language := "en", turn_index := 1, user_text := userReplyText,
    bot_text := botQuestionText, thesis_scores := ⟨0, 0, 1⟩,
    pair_best := ⟨0, 0, 1⟩, max_sent_contra := 0, on_topic := false,
    user_wc := 5, policy := ⟨2, 9⟩, progress_positive_judgements := 0,
    progress_assistant_turns := 1 }

/-- C4 counterexample: with an NLI scorer that raises during payload
building, `analyze_conversation` raises instead of degrading to a `None`
payload — the turn crashes, contrary to the claim. -/
theorem C4_counterexample :
    analyze_conversation C4errEnv C4msgs C4state = Except.error () ∧
    ¬∃ reply s', analyze_conversation C4errEnv C4msgs C4state =
      Except.ok (reply, s') := by
  have h1 : analyze_conversation C4errEnv C4msgs C4state =
      Except.error () := rfl
  refine ⟨h1, ?_⟩
  rintro ⟨r, s', h⟩
  rw [h1] at h
  cases h

/-- Witness for C4 (amended): a concrete judge failure completes the turn
with the judge state unchanged, and a concrete NLI failure propagates. -/
theorem C4_collaborator_failure_handling_witness :
    (C4state.match_concluded = false ∧
      build_llm_judge_payload C4jEnv.nli C4jEnv.scoring
        (map_history C4msgs) C4state.stance C4state.topic
        { C4state with
          assistant_turns := count_assistant_turns C4msgs } =
        Except.ok (some C4payload, userReplyText, botQuestionText) ∧
      C4jEnv.judge C4payload = Except.error () ∧
      build_llm_judge_payload C4errEnv.nli C4errEnv.scoring
        (map_history C4msgs) C4state.stance C4state.topic
        { C4state with
          assistant_turns := count_assistant_turns C4msgs } =
        Except.error ()) ∧
    ((∃ reply s', analyze_conversation C4jEnv C4msgs C4state =
        Except.ok (reply, s') ∧
        s'.positive_judgements = C4state.positive_judgements ∧
        s'.last_judge_accept = C4state.last_judge_accept ∧
        s'.last_judge_reason_label = C4state.last_judge_reason_label) ∧
      analyze_conversation C4errEnv C4msgs C4state = Except.error ()) :=
  ⟨⟨rfl, rfl, rfl, rfl⟩,
    (C4_collaborator_failure_handling C4jEnv C4msgs C4state rfl).1
      C4payload userReplyText botQuestionText rfl rfl,
    (C4_collaborator_failure_handling C4errEnv C4msgs C4state rfl).2
      () rfl⟩

theorem dropWhile_head_false (p : Char → Bool) (l : List Char) :
    ∀ c, (l.dropWhile p).head? = some c → p c = false := by
  induction l with
  | nil =>
    intro c h
    cases h
  | cons a t ih =>
    intro c h
    by_cases hp : p a = true
    · rw [List.dropWhile_cons_of_pos hp] at h
      exact ih c h
    · rw [List.dropWhile_cons_of_neg hp] at h
      simp only [List.head?_cons, Option.some.injEq] at h
      subst h
      exact Bool.eq_false_iff.mpr hp

theorem dropWhile_getLast?_eq (p : Char → Bool) (l : List Char)
    (h : l.dropWhile p ≠ []) : (l.dropWhile p).getLast? = l.getLast? := by
  induction l with
  | nil => simp at h
  | cons a t ih =>
    by_cases hp : p a = true
    · rw [List.dropWhile_cons_of_pos hp] at h ⊢
      have ht : t ≠ [] := by
        rintro rfl
        simp at h
      obtain ⟨b, t', rfl⟩ := List.exists_cons_of_ne_nil ht
      rw [ih h, List.getLast?_cons_cons]
    · rw [List.dropWhile_cons_of_neg hp]

theorem trimChars_head_false (l : List Char) :
    ∀ c, (trimChars l).head? = some c → isWs c = false := by
  intro c h
  unfold trimChars at h
  rw [List.head?_reverse] at h
  by_cases hne : (l.dropWhile isWs).reverse.dropWhile isWs = []
  · rw [hne] at h
    cases h
  · rw [dropWhile_getLast?_eq isWs _ hne, List.getLast?_reverse] at h
    exact dropWhile_head_false isWs l c h

theorem trimChars_getLast_false (l : List Char) :
    ∀ c, (trimChars l).getLast? = some c → isWs c = false := by
  intro c h
  unfold trimChars at h
  rw [List.getLast?_reverse] at h
  exact dropWhile_head_false isWs _ c h

theorem trimChars_within (l : List Char) : trimChars l <:+: l := by
  unfold trimChars
  have h1 : (l.dropWhile isWs).reverse.dropWhile isWs <:+
      (l.dropWhile isWs).reverse := List.dropWhile_suffix isWs
  have h2 : ((l.dropWhile isWs).reverse.dropWhile isWs).reverse <+:
      l.dropWhile isWs := by
    have := List.reverse_prefix.mpr h1
    simpa using this
  exact h2.isInfix.trans (List.dropWhile_suffix isWs).isInfix

theorem collapseWsFuel_head_not_ws (fuel : ℕ) (l : List Char)
    (hl : ∀ c, l.head? = some c → isWs c = false) :
    ∀ c, (collapseWsFuel fuel l).head? = some c → isWs c = false := by
  intro c h
  rcases fuel with _ | f
  · simp [collapseWsFuel] at h
  · rcases l with _ | ⟨a, rest⟩
    · simp [collapseWsFuel] at h
    · by_cases hw : isWs a = true
      · rw [hl a rfl] at hw
        cases hw
      · rw [show collapseWsFuel (f + 1) (a :: rest) =
            a :: collapseWsFuel f rest from by
          simp only [collapseWsFuel]
          rw [if_neg hw]] at h
        simp only [List.head?_cons, Option.some.injEq] at h
        subst h
        exact Bool.eq_false_iff.mpr hw

theorem collapseWsFuel_chain (fuel : ℕ) (l : List Char) :
    List.Chain' (fun a b => isWs a = false ∨ isWs b = false)
      (collapseWsFuel fuel l) := by
  induction fuel generalizing l with
  | zero => simp [collapseWsFuel]
  | succ f ih =>
    rcases l with _ | ⟨a, rest⟩
    · simp [collapseWsFuel]
    · by_cases hw : isWs a = true
      · rw [show collapseWsFuel (f + 1) (a :: rest) =
            ' ' :: collapseWsFuel f (rest.dropWhile isWs) from by
          simp only [collapseWsFuel]
          rw [if_pos hw]]
        rw [List.chain'_cons']
        refine ⟨?_, ih _⟩
        intro b hb
        right
        exact collapseWsFuel_head_not_ws f _
          (dropWhile_head_false isWs rest) b (Option.mem_def.mp hb)
      · rw [show collapseWsFuel (f + 1) (a :: rest) =
            a :: collapseWsFuel f rest from by
          simp only [collapseWsFuel]
          rw [if_neg hw]]
        rw [List.chain'_cons']
        exact ⟨fun b _ => Or.inl (Bool.eq_false_iff.mpr hw), ih rest⟩

theorem sanitized_reply_props (raw : String) :
    (∀ c, (pyStrip (sanitize_end_markers raw)).toList.head? = some c →
      isWs c = false) ∧
    (∀ c, (pyStrip (sanitize_end_markers raw)).toList.getLast? = some c →
      isWs c = false) ∧
    List.Chain' (fun a b => isWs a = false ∨ isWs b = false)
      (pyStrip (sanitize_end_markers raw)).toList := by
  have hlist : (pyStrip (sanitize_end_markers raw)).toList =
      trimChars (trimChars (collapseWs
        (String.mk (removeEndMarkersFuel raw.toList.length
          raw.toList)).toList)) := rfl
  rw [hlist]
  refine ⟨trimChars_head_false _, trimChars_getLast_false _, ?_⟩
  have hchain := collapseWsFuel_chain
    (String.mk (removeEndMarkersFuel raw.toList.length
      raw.toList)).toList.length
    (String.mk (removeEndMarkersFuel raw.toList.length raw.toList)).toList
  have hinf : trimChars (trimChars (collapseWs
      (String.mk (removeEndMarkersFuel raw.toList.length
        raw.toList)).toList)) <:+:
      collapseWs (String.mk (removeEndMarkersFuel raw.toList.length
        raw.toList)).toList :=
    (trimChars_within _).trans (trimChars_within _)
  exact hchain.infix hinf

/-- C10 (amended): every reply returned by `analyze_conversation` — on the
already-concluded short-circuit path and on the normal path — is the result
of the end-marker sanitization pass followed by whitespace collapsing and
stripping; consequently it has no leading or trailing whitespace and no two
adjacent whitespace characters.  The single substitution pass does NOT
guarantee absence of marker phrases: removing one marker can splice a new
one together (which is what fails in the claim as stated). -/
theorem C10_reply_sanitization (env : Env) (messages : List Message)
    (s : DebateState) (reply : String) (s' : DebateState)
    (hrun : analyze_conversation env messages s = Except.ok (reply, s')) :
    (∃ raw, reply = pyStrip (sanitize_end_markers raw)) ∧
    (∀ c, reply.toList.head? = some c → isWs c = false) ∧
    (∀ c, reply.toList.getLast? = some c → isWs c = false) ∧
    List.Chain' (fun a b => isWs a = false ∨ isWs b = false)
      reply.toList := by
  have hshape : ∃ raw, reply = pyStrip (sanitize_end_markers raw) := by
    unfold analyze_conversation at hrun
    by_cases hc : ({ s with
        assistant_turns :=
          count_assistant_turns messages }).match_concluded = true
    · rw [if_pos hc] at hrun
      simp only [Except.ok.injEq, Prod.mk.injEq] at hrun
      exact ⟨_, hrun.1.symm⟩
    · rw [if_neg hc] at hrun
      rcases hb : build_llm_judge_payload env.nli env.scoring
          (map_history messages) s.stance s.topic
          { s with assistant_turns := count_assistant_turns messages }
          with e | ⟨p?, u, b⟩
      · rw [hb] at hrun
        cases hrun
      · rw [hb] at hrun
        obtain ⟨h1, -⟩ := finishTurn_ok _ _ _ _ _ _ hrun
        exact ⟨_, h1⟩
  obtain ⟨raw, hr⟩ := hshape
  subst hr
  obtain ⟨hh, hl, hch⟩ := sanitized_reply_props raw
  exact ⟨⟨raw, rfl⟩, hh, hl, hch⟩

/-- The C10 counterexample environment: the reply generator emits a string
in which removing `debate is over` splices together `debate concluded`. -/
def C10env : Env :=
  { nli := constNLI,
    judge := fun _ => Except.error (),
    gen := fun _ _ => "debate condebate is overcluded",
    genEnd := fun _ _ => "End." }

/-- The C10 state (ongoing, far from both thresholds). -/
def C10state : DebateState :=
  { topic := "T", stance := .pro, policy := ⟨5, 9⟩ }

/-- C10 counterexample: on an empty transcript the turn returns the
sanitized generator output `"debate concluded"`, which still contains a
case-insensitive end-marker phrase — one substitution pass can create new
markers. -/
theorem C10_counterexample :
    analyze_conversation C10env [] C10state =
      Except.ok ("debate concluded",
        { C10state with assistant_turns := 1 }) ∧
    hasEndMarker "debate concluded" = true :=
  ⟨rfl, rfl⟩

/-- Witness for C10 (amended) at the concrete counterexample run. -/
theorem C10_reply_sanitization_witness :
    (analyze_conversation C10env [] C10state =
      Except.ok ("debate concluded",
        { C10state with assistant_turns := 1 })) ∧
    ((∃ raw, ("debate concluded" : String) =
        pyStrip (sanitize_end_markers raw)) ∧
     (∀ c, ("debate concluded" : String).toList.head? = some c →
        isWs c = false) ∧
     (∀ c, ("debate concluded" : String).toList.getLast? = some c →
        isWs c = false) ∧
     List.Chain' (fun a b => isWs a = false ∨ isWs b = false)
        ("debate concluded" : String).toList) :=
  ⟨rfl,
    C10_reply_sanitization C10env [] C10state "debate concluded"
      { C10state with assistant_turns := 1 } rfl⟩

/-- C5: Novelty edge values, evaluated on both cited implementations.  The
`NoveltyGuard` scorer satisfies the claim: `novelty("hola", ["hola"]) = 0`
exactly, `novelty("hola", []) = 1`, and empty current text yields 0.  The
other cited implementation, `ConcessionService._novelty_score`, raises
(`STOP_ALL` is never imported in `concession_service.py`) at the same
input instead of returning 0.0 — contradicting the claim, the method's own
docstring, and its working twin; the two early returns, which never
tokenize, still behave as claimed. -/
theorem C5_novelty_edge_values_code_bug :
    novelty_score "hola" ["hola"] = 0 ∧
    novelty_score "hola" [] = 1 ∧
    novelty_score "" ["x"] = 0 ∧
    novelty_score_service "hola" ["hola"] = Except.error () ∧
    novelty_score_service "hola" [] = Except.ok 1 ∧
    novelty_score_service "" ["x"] = Except.ok 0 := by
  refine ⟨novelty_score_self "hola" (by decide), ?_, ?_, rfl, rfl, rfl⟩
  · unfold novelty_score
    rw [if_neg (by decide)]
    simp
  · simp [novelty_score]

end Persuasion
